import Mathlib

/-!
Shallow embedding of three dfvfs source files and the collaborators their
behaviour depends on:

* `dfvfs/path/fake_path_spec.py` — `FakePathSpec.__init__`
* `dfvfs/vfs/sqlite_blob_file_system.py` — `SQLiteBlobFileSystem`
* `dfvfs/vfs/fvde_file_system.py` — `FVDEFileSystem`

Python exceptions are embedded as an `Except` over the error taxonomy the
spec defines; stateful methods are embedded as explicit state passing,
returning the method result, the instance state after the call, and a
trace of the resource events the call performed.  External collaborators
(`resolver.Resolver.OpenFileObject`, `fvde.FVDEVolumeOpen`) are parameters
of the embedding, quantified over in the theorems.

A path-specification chain is embedded as the list of its nodes, innermost
first: a `PathSpec` is the node for the spec itself together with the list
of its ancestor nodes (head of the list is the parent's node).  This is
the chain representation of spec section 6 and makes chain equality the
derived structural equality.
-/

namespace DFVFS

/-- The error kinds of the spec's four-kind taxonomy, as raised or caught in
the three source files (`errors.PathSpecError` is the structural kind,
`errors.AccessError` the access kind, builtin `IOError` the I/O kind,
builtin `ValueError` the argument kind), plus `otherError` standing for any
Python exception outside the taxonomy. -/
inductive PyError where
  | pathSpecError
  | accessError
  | ioError
  | valueError
  | otherError
deriving DecidableEq, Repr

/-- One node of a path-specification chain, with the type-specific
attributes the three source files use: a `FakePathSpec` carries an optional
location (`fake_path_spec.py`); an `FVDEPathSpec` carries no attribute of
its own (`fvde_file_system.py` line 102 builds one from a parent alone); a
`SQLiteBlobPathSpec` carries a table name, a column name, an optional row
index and an optional row condition (`sqlite_blob_file_system.py` lines
89-90 and 107-110); `externalTag` stands for every other registered
path-spec type, of which these files only use the generic `parent`
attribute. -/
inductive PathSpecNode where
  | fake (location : Option String)
  | fvde
  | sqliteBlob (table_name : String) (column_name : String)
      (row_index : Option Nat) (row_condition : Option String)
  | externalTag (tag : Nat)
deriving DecidableEq, Repr

/-- A path specification: its own node plus the nodes of its parent chain,
parent first. -/
structure PathSpec where
  node : PathSpecNode
  ancestors : List PathSpecNode
deriving DecidableEq, Repr

/-- The ancestor-node list a spec built on top of the given optional parent
receives: none gives the empty chain, a parent contributes its own node
followed by its ancestors. -/
def ancestorsOf : Option PathSpec → List PathSpecNode
  | none => []
  | some p => p.node :: p.ancestors

namespace PathSpec

/-- The generic `parent` attribute of the path-spec base class
(`None` when the spec has no parent). -/
def parent : PathSpec → Option PathSpec
  | ⟨_, []⟩ => none
  | ⟨_, a :: rest⟩ => some ⟨a, rest⟩

/-- Embedding of `PathSpec.HasParent()`: the parent attribute is not `None`. -/
def HasParent (spec : PathSpec) : Bool :=
  spec.parent.isSome

/-- Embedding of `getattr(path_spec, u'row_index', None)`: the attribute is only present
on SQLite blob specs; on every other spec type the `getattr` default
`None` is returned. -/
def row_index (spec : PathSpec) : Option Nat :=
  match spec.node with
  | .sqliteBlob _ _ ri _ => ri
  | _ => none

/-- Embedding of `getattr(path_spec, u'row_condition', None)`: the attribute is only
present on SQLite blob specs; on every other spec type the `getattr`
default `None` is returned. -/
def row_condition (spec : PathSpec) : Option String :=
  match spec.node with
  | .sqliteBlob _ _ _ rc => rc
  | _ => none

/-- The spec a `FakePathSpec(location=..)` constructor call builds (no
parent). -/
def fakeSpec (location : Option String) : PathSpec :=
  ⟨.fake location, []⟩

/-- The spec an `FVDEPathSpec(parent=..)` constructor call builds. -/
def fvdeSpec (parent : Option PathSpec) : PathSpec :=
  ⟨.fvde, ancestorsOf parent⟩

/-- The spec a `SQLiteBlobPathSpec(table_name=.., column_name=..,
row_index=.., row_condition=.., parent=..)` constructor call builds;
omitted keyword arguments are `None`. -/
def sqliteBlobSpec (table_name : String) (column_name : String)
    (row_index : Option Nat) (row_condition : Option String)
    (parent : Option PathSpec) : PathSpec :=
  ⟨.sqliteBlob table_name column_name row_index row_condition,
    ancestorsOf parent⟩

end PathSpec

/-- Embedding of `FakePathSpec.__init__` (`fake_path_spec.py` lines 14-36): the `parent`
keyword argument is popped from `kwargs`; `if parent:` (a path-spec object
is always truthy, `None` is falsy) raises `ValueError(u'Parent value
set.')`; otherwise the spec is constructed with the location and no
parent. -/
def FakePathSpec.init (location : Option String) (parent : Option PathSpec) :
    Except PyError PathSpec :=
  match parent with
  | some _ => .error .valueError
  | none => .ok (PathSpec.fakeSpec location)

/-- A readable file object as returned by `resolver.Resolver.OpenFileObject`;
`numberOfRows` embeds the `GetNumberOfRows()` result of an open SQLite blob
file object. -/
structure FileObject where
  ident : Nat := 0
  numberOfRows : Nat := 0
deriving DecidableEq, Repr

/-- A `pyfvde.volume` handle as allocated by `pyfvde.volume()`. -/
structure FVDEVolume where
  ident : Nat := 0
deriving DecidableEq, Repr

/-- Modelled from the spec: the KeyChain credential store
(`dfvfs/credentials/keychain.py` is not under src/).  A map from chain
identity to a set of (credential kind, credential value) pairs, embedded as
an association list. -/
structure KeyChain where
  credentials : List (PathSpec × List (String × String)) := []
deriving DecidableEq, Repr

/-- Modelled from the spec: `KeyChain.ExtractCredentialsFromPathSpec(spec)`
"returns whatever credential set is registered for spec's identity
(possibly empty) for the backend to attempt with" (the method itself is not
under src/; `fvde_file_system.py` line 60 invokes it). -/
def KeyChain.ExtractCredentialsFromPathSpec (kc : KeyChain) (spec : PathSpec) :
    List (String × String) :=
  ((kc.credentials.filter (fun entry => entry.1 == spec)).map Prod.snd).flatten

/-- Modelled from the spec: the FileEntry base type
(`dfvfs/vfs/file_entry.py` is not under src/).  An entry records the path
specification it was created for and whether it is root and/or virtual;
both flags of the constructor default to false, so a call that omits them
produces a non-root, non-virtual entry. -/
structure FileEntry where
  path_spec : PathSpec
  is_root : Bool := false
  is_virtual : Bool := false
deriving DecidableEq, Repr

/-- Resource events a backend `_Open` / `GetNumberOfRows` /
`FileEntryExistsByPathSpec` call performs, in call order. -/
inductive Event where
  | extractCredentials (spec : PathSpec) (credentials : List (String × String))
  | openFileObjectAttempt (spec : PathSpec)
  | closeFileObject (fileObject : FileObject)
  | volumeUnlockAttempt (spec : PathSpec) (fileObject : FileObject)
      (keyChain : KeyChain)
deriving DecidableEq, Repr

/-- The external collaborators the three source files call into:
the resolver-wide key chain (`resolver.Resolver.key_chain`), the resolver
open (`resolver.Resolver.OpenFileObject`, which either returns an open file
object or raises), and the FVDE unlock helper (`fvde.FVDEVolumeOpen`, which
either unlocks the volume against the key chain or raises). -/
structure ResolverEnv where
  key_chain : KeyChain := {}
  OpenFileObject : PathSpec → Except PyError FileObject
  FVDEVolumeOpen : PathSpec → FileObject → KeyChain → Except PyError Unit

/-- The state of a `SQLiteBlobFileSystem` instance: its defining path
specification (`self._path_spec`, stored by the base-class open), the
`self._file_object` field and the `self._number_of_rows` cache, both
initialised to `None` in `__init__`. -/
structure SQLiteBlobFileSystem where
  path_spec : PathSpec
  file_object : Option FileObject := none
  number_of_rows : Option Nat := none
deriving DecidableEq, Repr

/-- The state of an `FVDEFileSystem` instance: its defining path
specification and the `self._fvde_volume` and `self._file_object` fields,
both initialised to `None` in `__init__`. -/
structure FVDEFileSystem where
  path_spec : PathSpec
  fvde_volume : Option FVDEVolume := none
  file_object : Option FileObject := none
deriving DecidableEq, Repr

namespace SQLiteBlobFileSystem

/-- Embedding of `SQLiteBlobFileSystem._Open` (`sqlite_blob_file_system.py` lines
37-57): a spec whose parent is `None` raises `PathSpecError` before
anything else; otherwise the parent is opened through the resolver and the
resulting file object is stored in `self._file_object`.  Returns the
method result, the instance state after the call and the event trace. -/
def OpenImpl (fs : SQLiteBlobFileSystem) (env : ResolverEnv)
    (path_spec : PathSpec) :
    Except PyError Unit × SQLiteBlobFileSystem × List Event :=
  match path_spec.parent with
  | none => (.error .pathSpecError, fs, [])
  | some parent =>
      match env.OpenFileObject parent with
      | .error e => (.error e, fs, [.openFileObjectAttempt parent])
      | .ok file_object =>
          (.ok (), { fs with file_object := some file_object },
            [.openFileObjectAttempt parent])

/-- Embedding of `SQLiteBlobFileSystem.FileEntryExistsByPathSpec`
(`sqlite_blob_file_system.py` lines 59-78): attempt to open the path
specification through the resolver; `except (errors.AccessError,
errors.PathSpecError, IOError, ValueError): return False`; on success the
file object is closed and `True` is returned; any other exception is not
caught. -/
def FileEntryExistsByPathSpec (env : ResolverEnv) (path_spec : PathSpec) :
    Except PyError Bool :=
  match env.OpenFileObject path_spec with
  | .error .accessError => .ok false
  | .error .pathSpecError => .ok false
  | .error .ioError => .ok false
  | .error .valueError => .ok false
  | .error e => .error e
  | .ok _ => .ok true

/-- Embedding of `SQLiteBlobFileSystem.GetFileEntryByPathSpec`
(`sqlite_blob_file_system.py` lines 80-99): read `row_index` and
`row_condition` with `getattr(.., None)`; if both are `None` return a
root, virtual entry, otherwise an entry with the constructor's default
flags (non-root, non-virtual). -/
def GetFileEntryByPathSpec (path_spec : PathSpec) : FileEntry :=
  let row_index := path_spec.row_index
  let row_condition := path_spec.row_condition
  if row_index = none && row_condition = none then
    { path_spec := path_spec, is_root := true, is_virtual := true }
  else
    { path_spec := path_spec }

/-- Embedding of `SQLiteBlobFileSystem.GetRootFileEntry` (`sqlite_blob_file_system.py`
lines 101-111): build a `SQLiteBlobPathSpec` from the defining spec's
`table_name`, `column_name` and `parent` (no row index, no row condition)
and return `GetFileEntryByPathSpec` of it.  When the defining spec is not a
SQLite blob spec the attribute reads raise `AttributeError`, an exception
outside the taxonomy. -/
def GetRootFileEntry (fs : SQLiteBlobFileSystem) : Except PyError FileEntry :=
  match fs.path_spec.node with
  | .sqliteBlob table_name column_name _ _ =>
      .ok (GetFileEntryByPathSpec
        (PathSpec.sqliteBlobSpec table_name column_name none none
          fs.path_spec.parent))
  | _ => .error .otherError

/-- Embedding of `SQLiteBlobFileSystem.GetNumberOfRows` (`sqlite_blob_file_system.py`
lines 113-122): if `self._number_of_rows` is not `None` return it at once;
otherwise open the path specification through the resolver, store the file
object's row count in `self._number_of_rows`, close the file object and
return the count. -/
def GetNumberOfRows (fs : SQLiteBlobFileSystem) (env : ResolverEnv)
    (path_spec : PathSpec) :
    Except PyError Nat × SQLiteBlobFileSystem × List Event :=
  match fs.number_of_rows with
  | some n => (.ok n, fs, [])
  | none =>
      match env.OpenFileObject path_spec with
      | .error e => (.error e, fs, [.openFileObjectAttempt path_spec])
      | .ok file_object =>
          (.ok file_object.numberOfRows,
            { fs with number_of_rows := some file_object.numberOfRows },
            [.openFileObjectAttempt path_spec, .closeFileObject file_object])

end SQLiteBlobFileSystem

namespace FVDEFileSystem

/-- Embedding of `FVDEFileSystem._Open` (`fvde_file_system.py` lines 42-74): a spec
whose parent is `None` raises `PathSpecError` before anything else; then
`resolver.Resolver.key_chain.ExtractCredentialsFromPathSpec(path_spec)` is
invoked, a `pyfvde.volume` handle is allocated, the parent is opened
through the resolver, and `fvde.FVDEVolumeOpen(fvde_volume, path_spec,
file_object, resolver.Resolver.key_chain)` attempts the unlock inside a
`try` whose bare `except` closes the parent file object and re-raises; on
success `self._fvde_volume` and `self._file_object` are assigned. -/
def OpenImpl (fs : FVDEFileSystem) (env : ResolverEnv)
    (path_spec : PathSpec) :
    Except PyError Unit × FVDEFileSystem × List Event :=
  match path_spec.parent with
  | none => (.error .pathSpecError, fs, [])
  | some parent =>
      let credentials := env.key_chain.ExtractCredentialsFromPathSpec path_spec
      let fvde_volume : FVDEVolume := {}
      match env.OpenFileObject parent with
      | .error e =>
          (.error e, fs,
            [.extractCredentials path_spec credentials,
             .openFileObjectAttempt parent])
      | .ok file_object =>
          match env.FVDEVolumeOpen path_spec file_object env.key_chain with
          | .error e =>
              (.error e, fs,
                [.extractCredentials path_spec credentials,
                 .openFileObjectAttempt parent,
                 .volumeUnlockAttempt path_spec file_object env.key_chain,
                 .closeFileObject file_object])
          | .ok _ =>
              let opened : FVDEFileSystem :=
                { fs with fvde_volume := some fvde_volume,
                          file_object := some file_object }
              (.ok (), opened,
                [.extractCredentials path_spec credentials,
                 .openFileObjectAttempt parent,
                 .volumeUnlockAttempt path_spec file_object env.key_chain])

/-- Embedding of `FVDEFileSystem.GetFileEntryByPathSpec` (`fvde_file_system.py` lines
84-94): unconditionally return an `FVDEFileEntry` for the given spec with
`is_root=True, is_virtual=True`. -/
def GetFileEntryByPathSpec (path_spec : PathSpec) : FileEntry :=
  { path_spec := path_spec, is_root := true, is_virtual := true }

/-- Embedding of `FVDEFileSystem.GetRootFileEntry` (`fvde_file_system.py` lines
96-103): build an `FVDEPathSpec` from the defining spec's parent and
return `GetFileEntryByPathSpec` of it. -/
def GetRootFileEntry (fs : FVDEFileSystem) : FileEntry :=
  GetFileEntryByPathSpec (PathSpec.fvdeSpec fs.path_spec.parent)

end FVDEFileSystem


/-- Helper: two specs with equal parent attributes have equal ancestor
lists. -/
theorem PathSpec.ancestors_eq_of_parent_eq (s1 s2 : PathSpec)
    (h : s1.parent = s2.parent) : s1.ancestors = s2.ancestors := by
  rcases s1 with ⟨n1, anc1⟩
  rcases s2 with ⟨n2, anc2⟩
  cases anc1 <;> cases anc2 <;> simp_all [PathSpec.parent]

/-- C4 counterexample: constructing a `FakePathSpec` with a parent supplied
does not fail with the structural error kind (`PathSpecError`); at the
concrete input `FakePathSpec(parent=FakePathSpec())` it fails with
`ValueError`, the argument-error kind. -/
theorem FakePathSpec.init_parent_error_is_value_error :
    FakePathSpec.init none (some (PathSpec.fakeSpec none)) ≠
      Except.error PyError.pathSpecError ∧
    FakePathSpec.init none (some (PathSpec.fakeSpec none)) =
      Except.error PyError.valueError := by
  refine ⟨fun h => ?_, rfl⟩
  simp [FakePathSpec.init] at h

/-- C4 (amended): constructing a `FakePathSpec` (a parent-forbidding spec
type) with a parent supplied fails with `ValueError` (the argument-error
kind, not the structural kind); constructing it without a parent succeeds
and the resulting spec's `HasParent()` is false. -/
theorem FakePathSpec.init_rejects_parent (location : Option String)
    (parent : PathSpec) :
    FakePathSpec.init location (some parent) =
      Except.error PyError.valueError ∧
    FakePathSpec.init location none =
      Except.ok (PathSpec.fakeSpec location) ∧
    (PathSpec.fakeSpec location).HasParent = false :=
  ⟨rfl, rfl, rfl⟩

/-- C4 witness: the amended claim evaluated at a concrete location and
parent. -/
theorem FakePathSpec.init_rejects_parent_witness :
    FakePathSpec.init none (some (PathSpec.fakeSpec none)) =
      Except.error PyError.valueError ∧
    FakePathSpec.init none none =
      Except.ok (PathSpec.fakeSpec none) ∧
    (PathSpec.fakeSpec none).HasParent = false :=
  FakePathSpec.init_rejects_parent none (PathSpec.fakeSpec none)

/-- C3: `SQLiteBlobFileSystem.GetFileEntryByPathSpec` returns an entry
marked both root and virtual exactly when the spec carries neither a
`row_index` nor a `row_condition` attribute, and a non-root, non-virtual
leaf entry when at least one of those attributes is present. -/
theorem SQLiteBlobFileSystem.file_entry_root_iff_no_row_attrs
    (spec : PathSpec) :
    ((SQLiteBlobFileSystem.GetFileEntryByPathSpec spec).is_root = true ∧
      (SQLiteBlobFileSystem.GetFileEntryByPathSpec spec).is_virtual = true ↔
      spec.row_index = none ∧ spec.row_condition = none) ∧
    (spec.row_index ≠ none ∨ spec.row_condition ≠ none →
      (SQLiteBlobFileSystem.GetFileEntryByPathSpec spec).is_root = false ∧
      (SQLiteBlobFileSystem.GetFileEntryByPathSpec spec).is_virtual = false) := by
  cases h1 : spec.row_index <;> cases h2 : spec.row_condition <;>
    simp [SQLiteBlobFileSystem.GetFileEntryByPathSpec, h1, h2]

/-- C3 witness: at a concrete spec carrying `row_index=3` the entry is a
non-root, non-virtual leaf. -/
theorem SQLiteBlobFileSystem.file_entry_root_iff_no_row_attrs_witness :
    (SQLiteBlobFileSystem.GetFileEntryByPathSpec
      (PathSpec.sqliteBlobSpec ("files") ("data") (some 3) none
        (some (PathSpec.fakeSpec none)))).is_root = false ∧
    (SQLiteBlobFileSystem.GetFileEntryByPathSpec
      (PathSpec.sqliteBlobSpec ("files") ("data") (some 3) none
        (some (PathSpec.fakeSpec none)))).is_virtual = false :=
  (SQLiteBlobFileSystem.file_entry_root_iff_no_row_attrs _).2
    (Or.inl (by decide))

/-- C10: `SQLiteBlobFileSystem.GetFileEntryByPathSpec` tests attribute
presence against `None`, not truthiness: a spec whose `row_index` equals 0
(a falsy but present value) yields a non-root, non-virtual leaf entry, and
an entry marked root or virtual can only arise when both attributes are
literally absent (`None`). -/
theorem SQLiteBlobFileSystem.row_index_zero_is_leaf (spec : PathSpec) :
    (spec.row_index = some 0 →
      (SQLiteBlobFileSystem.GetFileEntryByPathSpec spec).is_root = false ∧
      (SQLiteBlobFileSystem.GetFileEntryByPathSpec spec).is_virtual = false) ∧
    ((SQLiteBlobFileSystem.GetFileEntryByPathSpec spec).is_root = true ∨
      (SQLiteBlobFileSystem.GetFileEntryByPathSpec spec).is_virtual = true →
      spec.row_index = none ∧ spec.row_condition = none) := by
  cases h1 : spec.row_index <;> cases h2 : spec.row_condition <;>
    simp [SQLiteBlobFileSystem.GetFileEntryByPathSpec, h1, h2]

/-- C10 witness: at a concrete spec with `row_index=0` the entry is a
non-root, non-virtual leaf. -/
theorem SQLiteBlobFileSystem.row_index_zero_is_leaf_witness :
    (SQLiteBlobFileSystem.GetFileEntryByPathSpec
      (PathSpec.sqliteBlobSpec ("files") ("data") (some 0) none
        (some (PathSpec.fakeSpec none)))).is_root = false ∧
    (SQLiteBlobFileSystem.GetFileEntryByPathSpec
      (PathSpec.sqliteBlobSpec ("files") ("data") (some 0) none
        (some (PathSpec.fakeSpec none)))).is_virtual = false :=
  (SQLiteBlobFileSystem.row_index_zero_is_leaf _).1 rfl


/-- C6: `FVDEFileSystem.GetFileEntryByPathSpec`, a root-only backend,
returns the same virtual root entry (marked root and virtual) for every
pair of FVDE specs whose parent chains match the filesystem instance's
defining chain; moreover every input spec whatsoever yields an entry
marked root and virtual. -/
theorem FVDEFileSystem.same_root_entry_for_matching_chains
    (fs : FVDEFileSystem) (s1 s2 : PathSpec)
    (h1 : s1.node = PathSpecNode.fvde) (h2 : s2.node = PathSpecNode.fvde)
    (hp1 : s1.parent = fs.path_spec.parent)
    (hp2 : s2.parent = fs.path_spec.parent) :
    FVDEFileSystem.GetFileEntryByPathSpec s1 =
      FVDEFileSystem.GetFileEntryByPathSpec s2 ∧
    (FVDEFileSystem.GetFileEntryByPathSpec s1).is_root = true ∧
    (FVDEFileSystem.GetFileEntryByPathSpec s1).is_virtual = true ∧
    ∀ s : PathSpec,
      (FVDEFileSystem.GetFileEntryByPathSpec s).is_root = true ∧
      (FVDEFileSystem.GetFileEntryByPathSpec s).is_virtual = true := by
  have hanc : s1.ancestors = s2.ancestors :=
    PathSpec.ancestors_eq_of_parent_eq s1 s2 (hp1.trans hp2.symm)
  have hnode : s1.node = s2.node := h1.trans h2.symm
  have hs : s1 = s2 := by
    rcases s1 with ⟨n1, a1⟩
    rcases s2 with ⟨n2, a2⟩
    simp only at hanc hnode
    rw [hanc, hnode]
  exact ⟨by rw [hs], rfl, rfl, fun s => ⟨rfl, rfl⟩⟩

/-- C6 witness: the theorem evaluated at a concrete filesystem and two
concrete specs whose parent chains match its defining chain. -/
theorem FVDEFileSystem.same_root_entry_for_matching_chains_witness :
    FVDEFileSystem.GetFileEntryByPathSpec
        (PathSpec.fvdeSpec (some (PathSpec.fakeSpec none))) =
      FVDEFileSystem.GetFileEntryByPathSpec
        (PathSpec.fvdeSpec (some (PathSpec.fakeSpec none))) ∧
    (FVDEFileSystem.GetFileEntryByPathSpec
        (PathSpec.fvdeSpec (some (PathSpec.fakeSpec none)))).is_root = true ∧
    (FVDEFileSystem.GetFileEntryByPathSpec
        (PathSpec.fvdeSpec (some (PathSpec.fakeSpec none)))).is_virtual =
      true ∧
    ∀ s : PathSpec,
      (FVDEFileSystem.GetFileEntryByPathSpec s).is_root = true ∧
      (FVDEFileSystem.GetFileEntryByPathSpec s).is_virtual = true :=
  FVDEFileSystem.same_root_entry_for_matching_chains
    ⟨PathSpec.fvdeSpec (some (PathSpec.fakeSpec none)), none, none⟩ _ _
    rfl rfl rfl rfl

/-- C9: `GetRootFileEntry()` of both filesystems returns an entry marked
virtual and root synthesized from the filesystem instance's own defining
spec: for `SQLiteBlobFileSystem` it carries the defining spec's
`table_name`, `column_name` and parent chain but no row index and no row
condition; for `FVDEFileSystem` it carries the defining spec's parent
chain. -/
theorem GetRootFileEntry_virtual_root (sfs : SQLiteBlobFileSystem)
    (ffs : FVDEFileSystem) (table_name column_name : String)
    (ri : Option Nat) (rc : Option String)
    (h : sfs.path_spec.node =
      PathSpecNode.sqliteBlob table_name column_name ri rc) :
    sfs.GetRootFileEntry = Except.ok
      { path_spec := PathSpec.sqliteBlobSpec table_name column_name none
          none sfs.path_spec.parent,
        is_root := true, is_virtual := true } ∧
    (PathSpec.sqliteBlobSpec table_name column_name none none
      sfs.path_spec.parent).row_index = none ∧
    (PathSpec.sqliteBlobSpec table_name column_name none none
      sfs.path_spec.parent).row_condition = none ∧
    ffs.GetRootFileEntry =
      { path_spec := PathSpec.fvdeSpec ffs.path_spec.parent,
        is_root := true, is_virtual := true } := by
  refine ⟨?_, rfl, rfl, rfl⟩
  simp [SQLiteBlobFileSystem.GetRootFileEntry, h,
    SQLiteBlobFileSystem.GetFileEntryByPathSpec, PathSpec.row_index,
    PathSpec.row_condition, PathSpec.sqliteBlobSpec]

/-- C9 witness: the theorem evaluated at concrete filesystem instances,
with a defining SQLite blob spec that carries a row index the synthesized
root spec must not inherit. -/
theorem GetRootFileEntry_virtual_root_witness :
    (SQLiteBlobFileSystem.mk
        (PathSpec.sqliteBlobSpec ("files") ("data") (some 3) none
          (some (PathSpec.fakeSpec none))) none none).GetRootFileEntry =
      Except.ok
        { path_spec := PathSpec.sqliteBlobSpec ("files") ("data") none none
            ((SQLiteBlobFileSystem.mk
              (PathSpec.sqliteBlobSpec ("files") ("data") (some 3) none
                (some (PathSpec.fakeSpec none)))
              none none).path_spec.parent),
          is_root := true, is_virtual := true } ∧
    (PathSpec.sqliteBlobSpec ("files") ("data") none none
      ((SQLiteBlobFileSystem.mk
        (PathSpec.sqliteBlobSpec ("files") ("data") (some 3) none
          (some (PathSpec.fakeSpec none)))
        none none).path_spec.parent)).row_index = none ∧
    (PathSpec.sqliteBlobSpec ("files") ("data") none none
      ((SQLiteBlobFileSystem.mk
        (PathSpec.sqliteBlobSpec ("files") ("data") (some 3) none
          (some (PathSpec.fakeSpec none)))
        none none).path_spec.parent)).row_condition = none ∧
    (FVDEFileSystem.mk (PathSpec.fvdeSpec (some (PathSpec.fakeSpec none)))
        none none).GetRootFileEntry =
      { path_spec := PathSpec.fvdeSpec
          ((FVDEFileSystem.mk
            (PathSpec.fvdeSpec (some (PathSpec.fakeSpec none)))
            none none).path_spec.parent),
        is_root := true, is_virtual := true } :=
  GetRootFileEntry_virtual_root _ _ ("files") ("data") (some 3) none rfl

/-- C1: `SQLiteBlobFileSystem.FileEntryExistsByPathSpec` returns false
exactly when the attempt to open the spec raises one of the four defined
error kinds (structural, access, I/O, argument), returns true exactly when
the open succeeds, and propagates an error outside those four kinds
unchanged. -/
theorem SQLiteBlobFileSystem.exists_check_classifies_errors
    (env : ResolverEnv) (spec : PathSpec) :
    (SQLiteBlobFileSystem.FileEntryExistsByPathSpec env spec =
        Except.ok false ↔
      env.OpenFileObject spec = Except.error PyError.pathSpecError ∨
      env.OpenFileObject spec = Except.error PyError.accessError ∨
      env.OpenFileObject spec = Except.error PyError.ioError ∨
      env.OpenFileObject spec = Except.error PyError.valueError) ∧
    (SQLiteBlobFileSystem.FileEntryExistsByPathSpec env spec =
        Except.ok true ↔
      ∃ fileObject, env.OpenFileObject spec = Except.ok fileObject) ∧
    (∀ e : PyError,
      e ≠ PyError.pathSpecError → e ≠ PyError.accessError →
      e ≠ PyError.ioError → e ≠ PyError.valueError →
      (SQLiteBlobFileSystem.FileEntryExistsByPathSpec env spec =
          Except.error e ↔
        env.OpenFileObject spec = Except.error e)) := by
  cases h : env.OpenFileObject spec with
  | ok fileObject =>
      simp [SQLiteBlobFileSystem.FileEntryExistsByPathSpec, h]
  | error e =>
      cases e <;>
        simp [SQLiteBlobFileSystem.FileEntryExistsByPathSpec, h]
      all_goals
        intro e2 ha hb hc hd hy
        exact absurd hy.symm (by assumption)

/-- C1 witness: with a resolver open that raises the I/O kind the check
returns false. -/
theorem SQLiteBlobFileSystem.exists_check_classifies_errors_witness :
    SQLiteBlobFileSystem.FileEntryExistsByPathSpec
      { key_chain := {},
        OpenFileObject := fun _ => Except.error PyError.ioError,
        FVDEVolumeOpen := fun _ _ _ => Except.ok () }
      (PathSpec.fakeSpec none) = Except.ok false :=
  ((SQLiteBlobFileSystem.exists_check_classifies_errors _ _).1).mpr
    (Or.inr (Or.inr (Or.inl rfl)))


/-- C5: both `FVDEFileSystem._Open` and `SQLiteBlobFileSystem._Open` on a
spec with `HasParent()` false fail with `PathSpecError` (the structural
kind) before acquiring any resource: the event trace is empty (no parent
file object is opened, no credentials are extracted, no unlock is
attempted) and the instance state is unchanged. -/
theorem open_without_parent_fails_structurally (ffs : FVDEFileSystem)
    (sfs : SQLiteBlobFileSystem) (envF envS : ResolverEnv) (spec : PathSpec)
    (h : spec.HasParent = false) :
    FVDEFileSystem.OpenImpl ffs envF spec =
      (Except.error PyError.pathSpecError, ffs, ([] : List Event)) ∧
    SQLiteBlobFileSystem.OpenImpl sfs envS spec =
      (Except.error PyError.pathSpecError, sfs, ([] : List Event)) := by
  have hp : spec.parent = none := by
    rcases hq : spec.parent with _ | p
    · rfl
    · rw [PathSpec.HasParent, hq] at h
      simp at h
  exact ⟨by simp [FVDEFileSystem.OpenImpl, hp],
    by simp [SQLiteBlobFileSystem.OpenImpl, hp]⟩

/-- C5 witness: the theorem evaluated at a concrete parentless spec and
concrete filesystem instances. -/
theorem open_without_parent_fails_structurally_witness :
    FVDEFileSystem.OpenImpl ⟨PathSpec.fakeSpec none, none, none⟩
        { key_chain := {}, OpenFileObject := fun _ => Except.ok {},
          FVDEVolumeOpen := fun _ _ _ => Except.ok () }
        (PathSpec.fakeSpec none) =
      (Except.error PyError.pathSpecError,
        ⟨PathSpec.fakeSpec none, none, none⟩, ([] : List Event)) ∧
    SQLiteBlobFileSystem.OpenImpl ⟨PathSpec.fakeSpec none, none, none⟩
        { key_chain := {}, OpenFileObject := fun _ => Except.ok {},
          FVDEVolumeOpen := fun _ _ _ => Except.ok () }
        (PathSpec.fakeSpec none) =
      (Except.error PyError.pathSpecError,
        ⟨PathSpec.fakeSpec none, none, none⟩, ([] : List Event)) :=
  open_without_parent_fails_structurally _ _ _ _ (PathSpec.fakeSpec none) rfl

/-- C2: in `FVDEFileSystem._Open`, when the parent file object has been
opened and the volume-unlock step raises any exception, the parent file
object is closed before the exception propagates unchanged, and the
instance state is left exactly as it was (`_fvde_volume` and
`_file_object` are not assigned). -/
theorem FVDEFileSystem.unlock_failure_closes_parent (fs : FVDEFileSystem)
    (env : ResolverEnv) (spec parent : PathSpec) (fileObject : FileObject)
    (e : PyError)
    (hp : spec.parent = some parent)
    (ho : env.OpenFileObject parent = Except.ok fileObject)
    (hu : env.FVDEVolumeOpen spec fileObject env.key_chain =
      Except.error e) :
    FVDEFileSystem.OpenImpl fs env spec =
      (Except.error e, fs,
        [Event.extractCredentials spec
          (env.key_chain.ExtractCredentialsFromPathSpec spec),
         Event.openFileObjectAttempt parent,
         Event.volumeUnlockAttempt spec fileObject env.key_chain,
         Event.closeFileObject fileObject]) := by
  simp [FVDEFileSystem.OpenImpl, hp, ho, hu]

/-- C2 witness: the theorem evaluated at a concrete instance, environment
and spec whose unlock step fails with the access kind. -/
theorem FVDEFileSystem.unlock_failure_closes_parent_witness :
    FVDEFileSystem.OpenImpl ⟨PathSpec.fakeSpec none, none, none⟩
        { key_chain := {}, OpenFileObject := fun _ => Except.ok {},
          FVDEVolumeOpen := fun _ _ _ => Except.error PyError.accessError }
        (PathSpec.fvdeSpec (some (PathSpec.fakeSpec none))) =
      (Except.error PyError.accessError,
        ⟨PathSpec.fakeSpec none, none, none⟩,
        [Event.extractCredentials
          (PathSpec.fvdeSpec (some (PathSpec.fakeSpec none))) [],
         Event.openFileObjectAttempt (PathSpec.fakeSpec none),
         Event.volumeUnlockAttempt
          (PathSpec.fvdeSpec (some (PathSpec.fakeSpec none))) {} {},
         Event.closeFileObject {}]) :=
  FVDEFileSystem.unlock_failure_closes_parent _ _
    (PathSpec.fvdeSpec (some (PathSpec.fakeSpec none)))
    (PathSpec.fakeSpec none) {} PyError.accessError rfl rfl rfl

/-- C7: the first successful `GetNumberOfRows` call on a fresh
`SQLiteBlobFileSystem` opens the underlying stream once, stores the row
count and closes the stream; every subsequent call, whatever its
environment and spec, returns the same stored count with no further open
of the underlying stream and no state change. -/
theorem SQLiteBlobFileSystem.row_count_cached (fs : SQLiteBlobFileSystem)
    (env : ResolverEnv) (spec : PathSpec) (fileObject : FileObject)
    (h0 : fs.number_of_rows = none)
    (h1 : env.OpenFileObject spec = Except.ok fileObject) :
    SQLiteBlobFileSystem.GetNumberOfRows fs env spec =
      (Except.ok fileObject.numberOfRows,
        { fs with number_of_rows := some fileObject.numberOfRows },
        [Event.openFileObjectAttempt spec,
         Event.closeFileObject fileObject]) ∧
    ∀ (env2 : ResolverEnv) (spec2 : PathSpec),
      SQLiteBlobFileSystem.GetNumberOfRows
          { fs with number_of_rows := some fileObject.numberOfRows }
          env2 spec2 =
        (Except.ok fileObject.numberOfRows,
          { fs with number_of_rows := some fileObject.numberOfRows },
          ([] : List Event)) := by
  constructor
  · simp [SQLiteBlobFileSystem.GetNumberOfRows, h0, h1]
  · intro env2 spec2
    simp [SQLiteBlobFileSystem.GetNumberOfRows]

/-- C7 witness: the theorem evaluated at a concrete fresh instance whose
stream reports 42 rows; the second call is evaluated at the same concrete
environment and spec. -/
theorem SQLiteBlobFileSystem.row_count_cached_witness :
    SQLiteBlobFileSystem.GetNumberOfRows
        ⟨PathSpec.fakeSpec none, none, none⟩
        { key_chain := {},
          OpenFileObject := fun _ => Except.ok ⟨7, 42⟩,
          FVDEVolumeOpen := fun _ _ _ => Except.ok () }
        (PathSpec.fakeSpec none) =
      (Except.ok 42, ⟨PathSpec.fakeSpec none, none, some 42⟩,
        [Event.openFileObjectAttempt (PathSpec.fakeSpec none),
         Event.closeFileObject ⟨7, 42⟩]) ∧
    SQLiteBlobFileSystem.GetNumberOfRows
        ⟨PathSpec.fakeSpec none, none, some 42⟩
        { key_chain := {},
          OpenFileObject := fun _ => Except.ok ⟨7, 42⟩,
          FVDEVolumeOpen := fun _ _ _ => Except.ok () }
        (PathSpec.fakeSpec none) =
      (Except.ok 42, ⟨PathSpec.fakeSpec none, none, some 42⟩,
        ([] : List Event)) :=
  ⟨(SQLiteBlobFileSystem.row_count_cached
      ⟨PathSpec.fakeSpec none, none, none⟩
      { key_chain := {},
        OpenFileObject := fun _ => Except.ok ⟨7, 42⟩,
        FVDEVolumeOpen := fun _ _ _ => Except.ok () }
      (PathSpec.fakeSpec none) ⟨7, 42⟩ rfl rfl).1,
   (SQLiteBlobFileSystem.row_count_cached
      ⟨PathSpec.fakeSpec none, none, none⟩
      { key_chain := {},
        OpenFileObject := fun _ => Except.ok ⟨7, 42⟩,
        FVDEVolumeOpen := fun _ _ _ => Except.ok () }
      (PathSpec.fakeSpec none) ⟨7, 42⟩ rfl rfl).2
     { key_chain := {},
       OpenFileObject := fun _ => Except.ok ⟨7, 42⟩,
       FVDEVolumeOpen := fun _ _ _ => Except.ok () }
     (PathSpec.fakeSpec none)⟩

/-- C8: in every `FVDEFileSystem._Open` execution whose trace reaches the
volume-unlock step, the credential extraction
`key_chain.ExtractCredentialsFromPathSpec(spec)` is the first event of the
call (so it precedes the unlock), and the key chain handed to the unlock
is the resolver key chain the extraction ran on, whose registered
credential set for the spec is exactly the extraction result. -/
theorem FVDEFileSystem.extract_credentials_before_unlock
    (fs : FVDEFileSystem) (env : ResolverEnv) (spec s : PathSpec)
    (fileObject : FileObject) (kc : KeyChain)
    (h : Event.volumeUnlockAttempt s fileObject kc ∈
      (FVDEFileSystem.OpenImpl fs env spec).2.2) :
    s = spec ∧ kc = env.key_chain ∧
    (FVDEFileSystem.OpenImpl fs env spec).2.2.head? =
      some (Event.extractCredentials spec
        (env.key_chain.ExtractCredentialsFromPathSpec spec)) ∧
    kc.ExtractCredentialsFromPathSpec s =
      env.key_chain.ExtractCredentialsFromPathSpec spec := by
  rcases hp : spec.parent with _ | parent
  · simp [FVDEFileSystem.OpenImpl, hp] at h
  · cases ho : env.OpenFileObject parent with
    | error e =>
        simp [FVDEFileSystem.OpenImpl, hp, ho] at h
    | ok fileObject2 =>
        cases hu : env.FVDEVolumeOpen spec fileObject2 env.key_chain with
        | error e =>
            simp [FVDEFileSystem.OpenImpl, hp, ho, hu] at h
            obtain ⟨rfl, rfl, rfl⟩ := h
            exact ⟨rfl, rfl,
              by simp [FVDEFileSystem.OpenImpl, hp, ho, hu], rfl⟩
        | ok u =>
            simp [FVDEFileSystem.OpenImpl, hp, ho, hu] at h
            obtain ⟨rfl, rfl, rfl⟩ := h
            exact ⟨rfl, rfl,
              by simp [FVDEFileSystem.OpenImpl, hp, ho, hu], rfl⟩

/-- C8 witness: the theorem evaluated at a concrete execution whose unlock
step fails, so its trace contains the unlock attempt. -/
theorem FVDEFileSystem.extract_credentials_before_unlock_witness :
    PathSpec.fvdeSpec (some (PathSpec.fakeSpec none)) =
      PathSpec.fvdeSpec (some (PathSpec.fakeSpec none)) ∧
    ({} : KeyChain) = ({} : KeyChain) ∧
    (FVDEFileSystem.OpenImpl ⟨PathSpec.fakeSpec none, none, none⟩
        { key_chain := {}, OpenFileObject := fun _ => Except.ok {},
          FVDEVolumeOpen := fun _ _ _ => Except.error PyError.accessError }
        (PathSpec.fvdeSpec (some (PathSpec.fakeSpec none)))).2.2.head? =
      some (Event.extractCredentials
        (PathSpec.fvdeSpec (some (PathSpec.fakeSpec none))) []) ∧
    KeyChain.ExtractCredentialsFromPathSpec {}
        (PathSpec.fvdeSpec (some (PathSpec.fakeSpec none))) =
      KeyChain.ExtractCredentialsFromPathSpec {}
        (PathSpec.fvdeSpec (some (PathSpec.fakeSpec none))) :=
  FVDEFileSystem.extract_credentials_before_unlock
    ⟨PathSpec.fakeSpec none, none, none⟩
    { key_chain := {}, OpenFileObject := fun _ => Except.ok {},
      FVDEVolumeOpen := fun _ _ _ => Except.error PyError.accessError }
    (PathSpec.fvdeSpec (some (PathSpec.fakeSpec none)))
    (PathSpec.fvdeSpec (some (PathSpec.fakeSpec none))) {} {} (by decide)

end DFVFS
